import Mathlib

/-!
Verification development for the asset-intelligence system: a shallow
embedding in Lean 4 of the classification engine, the metadata store
(asset rows, queue items, search), the extraction retry policy and the
scene-assembly loader, together with theorems settling the specified
properties.

Conventions of the embedding:
* Python floats are modelled as rationals; the concrete values appearing
  in the claims (0.1, 1.5, 10000, ...) are exactly representable IEEE
  doubles, so rational arithmetic agrees with the source on them.
* SQLite tables are modelled as Lean lists of rows in insertion
  (created_at / AUTOINCREMENT) order; row ids are list positions + 1.
* Python truthiness tests (`if category:`) are modelled explicitly:
  an optional argument is `Option`, and a present-but-falsy value
  (`some 0`, `some ""`) is distinguished from `none`.
* Timestamps are abstract `Nat` counters passed in by the caller.
-/

namespace AIGen

/-! ## Classification engine (asset_scanner.py) -/

/-- Embedding of `calculate_complexity` (asset_scanner.py 536-545):
polygon-count band gives a base score 1/3/5/7/9, multiplied by
`min(1.0 + (object_count - 1) * 0.1, 2.0)` and capped at 10.0. -/
def calculate_complexity (polygon_count object_count : Int) : ℚ :=
  let poly_score : ℚ :=
    if polygon_count < 100 then 1
    else if polygon_count < 500 then 3
    else if polygon_count < 2000 then 5
    else if polygon_count < 10000 then 7
    else 9
  let object_multiplier : ℚ := min (1 + ((object_count : ℚ) - 1) * (1/10)) 2
  min (poly_score * object_multiplier) 10

/-- Formula from the spec text: base from the five bands, result
`min(base * min(1 + 0.1*(objectCount-1), 2.0), 10)`. -/
def specComplexity (polygonCount objectCount : Int) : ℚ :=
  let base : ℚ :=
    if polygonCount < 100 then 1
    else if polygonCount < 500 then 3
    else if polygonCount < 2000 then 5
    else if polygonCount < 10000 then 7
    else 9
  min (base * min (1 + (1/10) * ((objectCount : ℚ) - 1)) 2) 10

/-- Embedding of `determine_quality` (asset_scanner.py 547-552). -/
def determine_quality (polygon_count : Int) : String :=
  if polygon_count < 500 then "low"
  else if polygon_count < 2000 then "medium"
  else if polygon_count < 10000 then "high"
  else "ultra"

/-- Rank of a quality tier in the order low < medium < high < ultra. -/
def tierRank (t : String) : Nat :=
  if t = "low" then 0
  else if t = "medium" then 1
  else if t = "high" then 2
  else 3

/-- Embedding of `_determine_size_category` (asset_scanner.py 1395-1406). -/
def determine_size_category (width height depth : ℚ) : String :=
  let max_dimension := max width (max height depth)
  if max_dimension < 1/2 then "small"
  else if max_dimension < 2 then "medium"
  else if max_dimension < 10 then "large"
  else "huge"

/-! ## Transient-error classification and retry (asset_scanner.py) -/

/-- Whether the character list `needle` occurs at the start of `hay`. -/
def startsWithChars : List Char → List Char → Bool
  | [], _ => true
  | _ :: _, [] => false
  | a :: as, b :: bs => a == b && startsWithChars as bs

/-- Whether the character list `needle` occurs contiguously anywhere in
`hay` (Python `needle in hay` on strings). -/
def containsChars (needle : List Char) : List Char → Bool
  | [] => needle.isEmpty
  | b :: bs => startsWithChars needle (b :: bs) || containsChars needle bs

/-- Substring containment: Python `needle in hay`. -/
def containsSub (hay needle : String) : Bool :=
  containsChars needle.data hay.data

/-- Python `str.lower()` (character-wise lowercasing; the identifiers
and messages involved are ASCII). -/
def strToLower (s : String) : String :=
  ⟨s.data.map Char.toLower⟩

/-- Remove every occurrence of the pattern `pat` from a character list
(Python `replace` with the empty replacement); `fuel` is an upper bound on the number
of steps, instantiated with the list length. -/
def removeAllChars (pat : List Char) : Nat → List Char → List Char
  | _, [] => []
  | 0, l => l
  | fuel + 1, c :: cs =>
    if startsWithChars pat (c :: cs) && !pat.isEmpty then
      removeAllChars pat fuel (List.drop (pat.length - 1) cs)
    else c :: removeAllChars pat fuel cs

/-- Python `replace` with the empty replacement, on strings. -/
def strRemoveAll (s pat : String) : String :=
  ⟨removeAllChars pat.data s.data.length s.data⟩

/-- The transient-error indicator substrings of `_is_transient_error`
(asset_scanner.py 1020-1023). -/
def transientIndicators : List String :=
  ["timeout", "connection", "memory", "lock", "busy",
   "temporary", "resource", "unavailable"]

/-- Embedding of `_is_transient_error` (asset_scanner.py 1014-1024):
lowercase the message and test each indicator for substring containment. -/
def is_transient_error (msg : String) : Bool :=
  let error_str := strToLower msg
  transientIndicators.any (fun indicator => containsSub error_str indicator)

/-- Outcome of a retry loop: final result, number of attempts actually
made, and number of one-second pauses (`time.sleep(1)`) taken. -/
structure RetryResult where
  result : Except String Nat
  attempts : Nat
  sleeps : Nat
deriving Repr

/-- Loop body of `_extract_with_retry` (asset_scanner.py 1040-1053).
`remaining` is the number of retries still allowed
(`max_retries - attempt`), so the Python guard `attempt < max_retries`
is `remaining > 0`.  The per-attempt extraction outcome is abstracted as
`extract : Nat → Except String Nat` (attempt index to result or error
message), since the body spawns an external worker process. -/
def extractGo (extract : Nat → Except String Nat) :
    Nat → Nat → Nat → RetryResult
  | 0, attempt, sleeps =>
    match extract attempt with
    | Except.ok n => ⟨Except.ok n, attempt + 1, sleeps⟩
    | Except.error e => ⟨Except.error e, attempt + 1, sleeps⟩
  | r + 1, attempt, sleeps =>
    match extract attempt with
    | Except.ok n => ⟨Except.ok n, attempt + 1, sleeps⟩
    | Except.error e =>
      if is_transient_error e then
        extractGo extract r (attempt + 1) (sleeps + 1)
      else ⟨Except.error e, attempt + 1, sleeps⟩

/-- Embedding of `_extract_with_retry` (asset_scanner.py 1026-1053);
the default `max_retries` in the source is 2. -/
def extract_with_retry (extract : Nat → Except String Nat)
    (max_retries : Nat) : RetryResult :=
  extractGo extract max_retries 0 0

/-! ## Metadata store: assets table (database.py) -/

/-- One row of the `assets` table (database.py 76-120), restricted to
the columns written by `create_asset_optimized` plus the defaults
`is_active = 1` and the timestamps abstracted away.  Numeric REAL
columns are rationals. -/
structure AssetRow where
  id : Nat
  name : String
  pack_id : Nat
  category : String
  subcategory : Option String
  file_path : String
  collection_name : Option String
  blend_file_path : String
  polygon_count : Int
  vertex_count : Int
  material_count : Int
  object_count : Int
  width : ℚ
  height : ℚ
  depth : ℚ
  volume : ℚ
  complexity_score : ℚ
  quality_tier : String
  estimated_load_time : ℚ
  memory_estimate : ℚ
  primary_style : Option String
  size_category : String
  is_active : Bool
  scan_status : String
deriving Repr, DecidableEq

/-- The keyword-argument dictionary of `create_asset_optimized`
(database.py 369-392): each field corresponds to one `properties.get`
call in the source. -/
structure CreateProps where
  polygon_count : Int
  vertex_count : Int
  material_count : Int
  object_count : Int
  dimensions : List ℚ
  complexity_score : ℚ
  quality_tier : String
  estimated_load_time : ℚ
  memory_estimate : ℚ
  primary_style : Option String
  size_category : String
  subcategory : Option String
  collection_name : Option String
  file_path : String
deriving Repr, DecidableEq

/-- The defaults of the `properties.get(..., default)` calls in
`create_asset_optimized`. -/
def defaultProps : CreateProps :=
  { polygon_count := 0
    vertex_count := 0
    material_count := 0
    object_count := 1
    dimensions := [0, 0, 0]
    complexity_score := 0
    quality_tier := "medium"
    estimated_load_time := 0
    memory_estimate := 0
    primary_style := none
    size_category := "medium"
    subcategory := none
    collection_name := none
    file_path := "" }

/-- Embedding of `create_asset_optimized` (database.py 369-411).  The
table is a list of rows; the new row id models SQLite AUTOINCREMENT as
`length + 1`.  The source performs no validation of the dimension
values: `width, height, depth = dimensions[:3] if len(dimensions) >= 3
else (0.0, 0.0, 0.0)`, then `volume = width * height * depth`, then an
unconditional INSERT with scan_status set to "complete". -/
def create_asset_optimized (db : List AssetRow) (name : String)
    (pack_id : Nat) (category : String) (blend_file_path : String)
    (props : CreateProps) : Nat × List AssetRow :=
  let dims := if 3 ≤ props.dimensions.length then props.dimensions else [0, 0, 0]
  let width := dims.getD 0 0
  let height := dims.getD 1 0
  let depth := dims.getD 2 0
  let volume := width * height * depth
  let row : AssetRow :=
    { id := db.length + 1
      name := name
      pack_id := pack_id
      category := category
      subcategory := props.subcategory
      file_path := props.file_path
      collection_name := props.collection_name
      blend_file_path := blend_file_path
      polygon_count := props.polygon_count
      vertex_count := props.vertex_count
      material_count := props.material_count
      object_count := props.object_count
      width := width
      height := height
      depth := depth
      volume := volume
      complexity_score := props.complexity_score
      quality_tier := props.quality_tier
      estimated_load_time := props.estimated_load_time
      memory_estimate := props.memory_estimate
      primary_style := props.primary_style
      size_category := props.size_category
      is_active := true
      scan_status := "complete" }
  (db.length + 1, db ++ [row])

/-! ## Metadata store: fast search (database.py 413-469) -/

/-- The optional arguments of `fast_asset_search`; `none` models an
omitted argument, `some v` a passed value (possibly falsy). -/
structure SearchFilters where
  category : Option String
  style : Option String
  quality_tier : Option String
  size_category : Option String
  max_complexity : Option ℚ
  max_polygons : Option Int
  pack_id : Option Nat
  limit : Nat
deriving Repr, DecidableEq

/-- Defaults of `fast_asset_search`: every filter omitted, `limit=100`. -/
def defaultFilters : SearchFilters :=
  { category := none
    style := none
    quality_tier := none
    size_category := none
    max_complexity := none
    max_polygons := none
    pack_id := none
    limit := 100 }

/-- Guard for a string filter: the source tests Python truthiness
(`if category:`) before adding `column = ?`, so `none` and the empty
string both apply no constraint. -/
def strGuardEq (arg : Option String) (col : String) : Bool :=
  match arg with
  | none => true
  | some s => if s = "" then true else col = s

/-- Guard for a string filter on a NULLable column (`primary_style`):
SQL `column = ?` is false when the column is NULL. -/
def strGuardEqOpt (arg : Option String) (col : Option String) : Bool :=
  match arg with
  | none => true
  | some s => if s = "" then true else col = some s

/-- Guard for `complexity_score <= ?`: `if max_complexity:` makes the
value 0 (falsy) apply no constraint. -/
def ratGuardLe (arg : Option ℚ) (col : ℚ) : Bool :=
  match arg with
  | none => true
  | some x => if x = 0 then true else col ≤ x

/-- Guard for `polygon_count <= ?` with the same truthiness test. -/
def intGuardLe (arg : Option Int) (col : Int) : Bool :=
  match arg with
  | none => true
  | some x => if x = 0 then true else col ≤ x

/-- Guard for `pack_id = ?` with the same truthiness test. -/
def natGuardEq (arg : Option Nat) (col : Nat) : Bool :=
  match arg with
  | none => true
  | some x => if x = 0 then true else col = x

/-- The WHERE clause of `fast_asset_search` (database.py 421-450):
`is_active = 1` plus one guard per passed (truthy) filter. -/
def rowMatches (f : SearchFilters) (r : AssetRow) : Bool :=
  r.is_active
    && strGuardEq f.category r.category
    && strGuardEqOpt f.style r.primary_style
    && strGuardEq f.quality_tier r.quality_tier
    && strGuardEq f.size_category r.size_category
    && ratGuardLe f.max_complexity r.complexity_score
    && intGuardLe f.max_polygons r.polygon_count
    && natGuardEq f.pack_id r.pack_id

/-- ORDER BY complexity_score, polygon_count (ascending). -/
def rowLe (a b : AssetRow) : Bool :=
  if a.complexity_score < b.complexity_score then true
  else if a.complexity_score = b.complexity_score then
    decide (a.polygon_count ≤ b.polygon_count)
  else false

/-- Insertion step of the sort used to model ORDER BY. -/
def insertRow (x : AssetRow) : List AssetRow → List AssetRow
  | [] => [x]
  | y :: ys => if rowLe x y then x :: y :: ys else y :: insertRow x ys

/-- Insertion sort modelling ORDER BY complexity_score, polygon_count. -/
def sortRows : List AssetRow → List AssetRow
  | [] => []
  | x :: xs => insertRow x (sortRows xs)

/-- One result dictionary of `fast_asset_search`: the row plus the
reconstructed `dimensions` list (database.py 459-468).  The
`or 0.0` fallback the source applies to each column maps NULL/0.0 to 0.0 and is the
identity on the non-NULL numeric columns written by the INSERT. -/
structure SearchResult where
  row : AssetRow
  dimensions : List ℚ
deriving Repr, DecidableEq

/-- Embedding of `fast_asset_search` (database.py 413-469): filter the
active rows by the guards, order by `(complexity_score, polygon_count)`,
apply LIMIT, and reconstruct `dimensions = [width, height, depth]`. -/
def fast_asset_search (db : List AssetRow) (f : SearchFilters) :
    List SearchResult :=
  (((sortRows (db.filter (rowMatches f))).take f.limit).map
    (fun r => ⟨r, [r.width, r.height, r.depth]⟩))

/-! ## Scanner storage of extracted assets (asset_scanner.py 1302-1359) -/

/-- The slice of an extracted `asset_data` dictionary consumed by
`_create_database_asset_improved`.  A dimension component is
`some q` when numeric (`isinstance(dim, (int, float))`) and `none`
when non-numeric. -/
structure ExtractedAsset where
  name : String
  kind : String
  category : String
  polygon_count : Int
  vertex_count : Int
  object_count : Int
  complexity_score : ℚ
  quality_tier : String
  dimensions : List (Option ℚ)
deriving Repr, DecidableEq

/-- Per-component validation of `_create_database_asset_improved`
(asset_scanner.py 1321-1326): a component that is non-numeric, below 0
or above 10000 is replaced by 0.0; otherwise it is kept. -/
def clampDim (d : Option ℚ) : ℚ :=
  match d with
  | none => 0
  | some q => if q < 0 ∨ q > 10000 then 0 else q

/-- Rational maximum with a lower bound, modelling Python `max(a, b)`. -/
def ratMax (a b : ℚ) : ℚ := max a b

/-- Embedding of `_create_database_asset_improved`
(asset_scanner.py 1302-1359): normalize the dimensions list, clamp each
component independently, then create the asset row unconditionally via
`create_asset_optimized`.  (The follow-up bounding-box property rows and
tag rows live in other tables and are outside this model.) -/
def create_database_asset_improved (db : List AssetRow)
    (a : ExtractedAsset) (pack_id : Nat) (relative_path : String)
    (blend_file_path : String) : Nat × List AssetRow :=
  let dimensions :=
    if a.dimensions.length < 3 then [some 0, some 0, some 0] else a.dimensions
  let width := clampDim (dimensions.getD 0 none)
  let height := clampDim (dimensions.getD 1 none)
  let depth := clampDim (dimensions.getD 2 none)
  let collection_name := if a.kind = "collection" then some a.name else none
  create_asset_optimized db a.name pack_id a.category blend_file_path
    { polygon_count := a.polygon_count
      vertex_count := a.vertex_count
      material_count := 0
      object_count := a.object_count
      dimensions := [width, height, depth]
      complexity_score := a.complexity_score
      quality_tier := a.quality_tier
      estimated_load_time := ratMax (1/10) (a.polygon_count / 10000)
      memory_estimate := ratMax 1 (a.polygon_count / 1000)
      primary_style := none
      size_category := determine_size_category width height depth
      subcategory := none
      collection_name := collection_name
      file_path := relative_path }

/-- A dimension component the claim calls offending: non-numeric,
strictly below 0, or strictly above 10000. -/
def dimOffending (d : Option ℚ) : Prop :=
  d = none ∨ ∃ q, d = some q ∧ (q < 0 ∨ 10000 < q)

/-! ## Scan queue (database.py 503-554) -/

/-- One row of the `scan_queue` table (database.py 223-237), with
timestamps as abstract counters. -/
structure ScanQueueItem where
  id : Nat
  blend_file_path : String
  pack_id : Nat
  priority : Int
  status : String
  error_message : Option String
  retry_count : Nat
  max_retries : Nat
  assigned_worker : Option String
  started_at : Option Nat
  completed_at : Option Nat
deriving Repr, DecidableEq

/-- The WHERE clause of `get_next_scan_item` (database.py 517-522):
`status` equal to "pending" and `retry_count < max_retries`. -/
def queueEligible (it : ScanQueueItem) : Bool :=
  it.status = "pending" && it.retry_count < it.max_retries

/-- ORDER BY priority DESC, created_at ASC LIMIT 1 over a list kept in
created_at order: the earliest item of maximal priority. -/
def pickBest : List ScanQueueItem → Option ScanQueueItem
  | [] => none
  | x :: xs =>
    match pickBest xs with
    | none => some x
    | some b => if b.priority > x.priority then some b else some x

/-- The SELECT statement of `get_next_scan_item`. -/
def selectNextPending (queue : List ScanQueueItem) : Option ScanQueueItem :=
  pickBest (queue.filter queueEligible)

/-- The UPDATE statement of `get_next_scan_item` (database.py 528-532):
it sets status to "processing", `assigned_worker` and `started_at` on the selected id. -/
def markProcessing (queue : List ScanQueueItem) (queue_id : Nat)
    (worker_id : String) (now : Nat) : List ScanQueueItem :=
  queue.map (fun it =>
    if it.id = queue_id then
      { it with status := "processing", assigned_worker := some worker_id,
                started_at := some now }
    else it)

/-- Embedding of `get_next_scan_item` (database.py 513-536) as one
serialized call: SELECT, then UPDATE; the returned dictionary is the
row as read (before the UPDATE). -/
def get_next_scan_item (worker_id : String) (now : Nat)
    (queue : List ScanQueueItem) :
    Option ScanQueueItem × List ScanQueueItem :=
  match selectNextPending queue with
  | none => (none, queue)
  | some it => (some it, markProcessing queue it.id worker_id now)

/-- Embedding of `update_scan_status` (database.py 538-554): on
status "failed", set the status and error message and increment
`retry_count`; otherwise just set the status.  Both branches set
`completed_at`; neither resets the status back to "pending". -/
def update_scan_status (queue : List ScanQueueItem) (queue_id : Nat)
    (status : String) (error_message : Option String) (now : Nat) :
    List ScanQueueItem :=
  queue.map (fun it =>
    if it.id = queue_id then
      if status = "failed" then
        { it with status := status, error_message := error_message,
                  retry_count := it.retry_count + 1,
                  completed_at := some now }
      else
        { it with status := status, completed_at := some now }
    else it)

/-- Local state of one worker thread that executes `get_next_scan_item` as
two separately interleavable database statements: pc 0 = about to run
the SELECT, pc 1 = about to run the UPDATE, pc 2 = returned. -/
structure WorkerRun where
  fetched : Option ScanQueueItem
  result : Option ScanQueueItem
  pc : Nat
deriving Repr, DecidableEq

/-- A worker that has not started its dequeue call. -/
def initWorker : WorkerRun := ⟨none, none, 0⟩

/-- One atomic database statement of the `get_next_scan_item` call
of one worker.  SQLite serializes individual statements, but the source runs the
SELECT and the UPDATE as two statements on an autocommit connection, so
statements of different workers may interleave between them. -/
def stepWorker (worker_id : String) (now : Nat) (w : WorkerRun)
    (queue : List ScanQueueItem) : WorkerRun × List ScanQueueItem :=
  match w.pc with
  | 0 => (⟨selectNextPending queue, w.result, 1⟩, queue)
  | 1 =>
    match w.fetched with
    | none => (⟨w.fetched, none, 2⟩, queue)
    | some it =>
      (⟨w.fetched, some it, 2⟩, markProcessing queue it.id worker_id now)
  | _ => (w, queue)

/-- Run two workers against one queue under an interleaving schedule:
`true` steps worker 1, `false` steps worker 2. -/
def runSchedule (w1id w2id : String) (now : Nat) :
    List Bool → WorkerRun → WorkerRun → List ScanQueueItem →
    WorkerRun × WorkerRun × List ScanQueueItem
  | [], w1, w2, q => (w1, w2, q)
  | true :: rest, w1, w2, q =>
    let s := stepWorker w1id now w1 q
    runSchedule w1id w2id now rest s.1 w2 s.2
  | false :: rest, w1, w2, q =>
    let s := stepWorker w2id now w2 q
    runSchedule w1id w2id now rest w1 s.1 s.2

/-! ## Scene-assembly loader (backend.py 492-712) -/

/-- The slice of an asset entry consumed by the per-file loading path:
`collection_name` decides the partition, `object_name` and `name` drive
mesh/object resolution. -/
structure LoadEntry where
  asset_id : Nat
  name : String
  collection_name : Option String
  object_name : Option String
deriving Repr, DecidableEq

/-- Python truthiness of an optional string (`if s:`). -/
def truthyOptStr (o : Option String) : Bool :=
  match o with
  | none => false
  | some s => s ≠ ""

/-- Embedding of `find_matching_mesh_names` (backend.py 683-712):
exact matches first (each inserted at index 0), then candidate-contains-
asset-name, then asset-name-contains-candidate, then `DATA_`-stripped
case-insensitive equality; later strategies skip names already chosen. -/
def find_matching_mesh_names (asset_name : String)
    (available_meshes : List String) : List String :=
  let lowerName := strToLower asset_name
  let m1 := (available_meshes.filter (fun m => m = asset_name)).reverse
  let m2 := available_meshes.foldl
    (fun ms m =>
      if containsSub (strToLower m) lowerName && !(ms.contains m) then ms ++ [m]
      else ms) m1
  let m3 := available_meshes.foldl
    (fun ms m =>
      if containsSub lowerName (strToLower m) && !(ms.contains m) then ms ++ [m]
      else ms) m2
  available_meshes.foldl
    (fun ms m =>
      if (strToLower (strRemoveAll m "DATA_") = lowerName) && !(ms.contains m)
      then ms ++ [m]
      else ms) m3

/-- Per-entry resolution loop of `load_meshes_batch`
(backend.py 594-612): prefer the object named `object_name` when it is
truthy and present in the file, else fall back to the first matching
mesh name; unresolvable entries contribute nothing to the load lists. -/
def resolveOne (available_objects available_meshes : List String)
    (acc : List String × List String) (e : LoadEntry) :
    List String × List String :=
  if truthyOptStr e.object_name
      && available_objects.contains (e.object_name.getD "") then
    (acc.1 ++ [e.object_name.getD ""], acc.2)
  else
    match find_matching_mesh_names e.name available_meshes with
    | [] => acc
    | m :: _ => (acc.1, acc.2 ++ [m])

/-- The accumulated `objects_to_load` and `meshes_to_load` lists of
`load_meshes_batch`. -/
def resolveMeshEntries (available_objects available_meshes : List String)
    (entries : List LoadEntry) : List String × List String :=
  entries.foldl (resolveOne available_objects available_meshes) ([], [])

/-- One `bpy.data.libraries.load` context: the names requested from the
container file in this single open operation. -/
structure OpenOp where
  collectionsReq : List String
  objectsReq : List String
  meshesReq : List String
deriving Repr, DecidableEq

/-- Embedding of the open-and-request part of `load_meshes_batch`
(backend.py 580-617): one file open; `data_to.objects =
list(set(objects_to_load))` and `data_to.meshes =
list(set(meshes_to_load))` request the deduplicated name lists in that
single batch call.  (The per-entry placement loop after the open does
not touch the file again.) -/
def load_meshes_batch (available_objects available_meshes : List String)
    (entries : List LoadEntry) : OpenOp :=
  let r := resolveMeshEntries available_objects available_meshes entries
  ⟨[], r.1.dedup, r.2.dedup⟩

/-- Embedding of the open-and-request part of `load_collections_batch`
(backend.py 523-548): one file open; the collection names that are
truthy strings present in the file are assigned to
`data_to.collections` in one batch (the source does not deduplicate
them). -/
def load_collections_batch (available_collections : List String)
    (entries : List LoadEntry) : OpenOp :=
  let names := entries.map (fun e => e.collection_name.getD "")
  ⟨names.filter (fun n => !(n = "") && available_collections.contains n),
   [], []⟩

/-- Embedding of `load_assets_from_single_file` (backend.py 492-520) at
the level of container-file open operations: partition the entries by
truthiness of `collection_name`, then run the collection batch loader
and the mesh batch loader on the nonempty partitions.  The returned
list has one element per `bpy.data.libraries.load` call on the file. -/
def load_assets_from_single_file
    (available_collections available_objects available_meshes : List String)
    (entries : List LoadEntry) : List OpenOp :=
  let collection_assets := entries.filter (fun e => truthyOptStr e.collection_name)
  let mesh_assets := entries.filter (fun e => !truthyOptStr e.collection_name)
  (if collection_assets.isEmpty then []
   else [load_collections_batch available_collections collection_assets]) ++
  (if mesh_assets.isEmpty then []
   else [load_meshes_batch available_objects available_meshes mesh_assets])

/-! ## Theorems -/

/-- C5: for every polygonCount ≥ 0 and objectCount ≥ 1, the complexity
score equals `min(base * min(1 + 0.1*(objectCount-1), 2.0), 10)` with
base 1/3/5/7/9 over the bands <100, <500, <2000, <10000, ≥10000, and the
result lies in [0, 10]. -/
theorem claim_C5_complexity : ∀ p oc : Int, 0 ≤ p → 1 ≤ oc →
    calculate_complexity p oc = specComplexity p oc ∧
    0 ≤ calculate_complexity p oc ∧ calculate_complexity p oc ≤ 10 := by
  intro p oc _hp hoc
  have hcast : (1 : ℚ) ≤ (oc : ℚ) := by exact_mod_cast hoc
  have hmul : (0 : ℚ) ≤ ((oc : ℚ) - 1) * (1/10) := by
    apply mul_nonneg <;> linarith
  refine ⟨?_, ?_, ?_⟩
  · simp only [calculate_complexity, specComplexity]
    rw [mul_comm ((oc : ℚ) - 1) (1/10)]
  · simp only [calculate_complexity]
    apply le_min _ (by norm_num)
    apply mul_nonneg
    · split_ifs <;> norm_num
    · exact le_min (by linarith) (by norm_num)
  · simp only [calculate_complexity]
    exact min_le_right _ _

theorem claim_C5_complexity_witness :
    calculate_complexity 150 3 = specComplexity 150 3 ∧
    0 ≤ calculate_complexity 150 3 ∧ calculate_complexity 150 3 ≤ 10 :=
  claim_C5_complexity 150 3 (by norm_num) (by norm_num)

/-- C6: the quality tier is low for polygonCount < 500, medium on
[500, 2000), high on [2000, 10000), ultra otherwise, and the tier is
monotone non-decreasing in polygon count for the order
low < medium < high < ultra. -/
theorem claim_C6_quality : ∀ p : Int, 0 ≤ p →
    ((p < 500 → determine_quality p = "low") ∧
     (500 ≤ p ∧ p < 2000 → determine_quality p = "medium") ∧
     (2000 ≤ p ∧ p < 10000 → determine_quality p = "high") ∧
     (10000 ≤ p → determine_quality p = "ultra")) ∧
    (∀ q : Int, p ≤ q →
      tierRank (determine_quality p) ≤ tierRank (determine_quality q)) := by
  intro p _hp
  constructor
  · refine ⟨?_, ?_, ?_, ?_⟩ <;> intro h <;> simp only [determine_quality] <;>
      split_ifs <;> first | rfl | (exfalso; omega)
  · intro q hpq
    simp only [determine_quality]
    split_ifs <;> first | decide | (exfalso; omega)

theorem claim_C6_quality_witness :
    determine_quality 600 = "medium" ∧
    tierRank (determine_quality 600) ≤ tierRank (determine_quality 5000) :=
  ⟨(claim_C6_quality 600 (by norm_num)).1.2.1 (by norm_num),
   (claim_C6_quality 600 (by norm_num)).2 5000 (by norm_num)⟩

/-- C7: an asset created via `create_asset_optimized` with dimensions
[2.0, 3.0, 1.5] and read back via `fast_asset_search` yields a record
whose reconstructed dimensions list equals [2.0, 3.0, 1.5] exactly. -/
theorem claim_C7_roundtrip :
    (fast_asset_search
      (create_asset_optimized [] "Crate" 1 "props" "/packs/props.blend"
        { defaultProps with dimensions := [2, 3, 3/2] }).2
      defaultFilters).map SearchResult.dimensions = [[2, 3, 3/2]] := by
  simp [fast_asset_search, create_asset_optimized, defaultProps,
        defaultFilters, sortRows, insertRow, rowMatches, ratGuardLe,
        intGuardLe, natGuardEq, strGuardEq, strGuardEqOpt, List.getD]

/-- Search results depend on the filters only through the row predicate
and the limit. -/
theorem fast_asset_search_congr (db : List AssetRow) (f1 f2 : SearchFilters)
    (h : rowMatches f1 = rowMatches f2) (hl : f1.limit = f2.limit) :
    fast_asset_search db f1 = fast_asset_search db f2 := by
  unfold fast_asset_search
  rw [h, hl]

/-- C10: `fast_asset_search` treats any falsy filter argument as absent:
passing 0 for max_complexity, max_polygons or pack_id, or the empty
string for category, style, quality_tier or size_category, returns the
same results as omitting that filter. -/
theorem claim_C10_falsy_filters : ∀ (db : List AssetRow) (f : SearchFilters),
    fast_asset_search db { f with max_complexity := some 0 } =
      fast_asset_search db { f with max_complexity := none } ∧
    fast_asset_search db { f with max_polygons := some 0 } =
      fast_asset_search db { f with max_polygons := none } ∧
    fast_asset_search db { f with pack_id := some 0 } =
      fast_asset_search db { f with pack_id := none } ∧
    fast_asset_search db { f with category := some "" } =
      fast_asset_search db { f with category := none } ∧
    fast_asset_search db { f with style := some "" } =
      fast_asset_search db { f with style := none } ∧
    fast_asset_search db { f with quality_tier := some "" } =
      fast_asset_search db { f with quality_tier := none } ∧
    fast_asset_search db { f with size_category := some "" } =
      fast_asset_search db { f with size_category := none } := by
  intro db f
  refine ⟨?_, ?_, ?_, ?_, ?_, ?_, ?_⟩ <;>
    exact fast_asset_search_congr db _ _ rfl rfl

/-- The row appended by `create_asset_optimized` when the dimensions
list has at least three entries: exactly one row is persisted,
unconditionally, with the given dimensions and `volume = w*h*d`. -/
theorem create_asset_optimized_spec (db : List AssetRow) (name : String)
    (pack_id : Nat) (category blend_file_path : String)
    (props : CreateProps) (h3 : 3 ≤ props.dimensions.length) :
    ∃ row : AssetRow,
      (create_asset_optimized db name pack_id category blend_file_path
        props).2 = db ++ [row] ∧
      row.width = props.dimensions.getD 0 0 ∧
      row.height = props.dimensions.getD 1 0 ∧
      row.depth = props.dimensions.getD 2 0 ∧
      row.volume = props.dimensions.getD 0 0 * props.dimensions.getD 1 0
        * props.dimensions.getD 2 0 := by
  simp only [create_asset_optimized]
  rw [if_pos h3]
  exact ⟨_, rfl, rfl, rfl, rfl, rfl⟩

/-- C2 (counterexample): `create_asset_optimized` called with the
out-of-range dimensions [-5, 3, 2] raises nothing and persists exactly
one row, with width -5 and volume -30 — contradicting the claim that a
malformed dimensions value fails with ValidationError and persists no
asset row. -/
theorem claim_C2_counterexample :
    ((create_asset_optimized [] "NegAsset" 1 "props" "/packs/p.blend"
        { defaultProps with dimensions := [-5, 3, 2] }).2).map
      AssetRow.width = [-5] ∧
    ((create_asset_optimized [] "NegAsset" 1 "props" "/packs/p.blend"
        { defaultProps with dimensions := [-5, 3, 2] }).2).map
      AssetRow.volume = [-30] := by
  constructor <;> norm_num [create_asset_optimized, defaultProps, List.getD]

/-- C2 (amended): `create_asset_optimized` performs no dimension
validation.  For every numeric dimensions list with at least three
entries — including values below 0 or above 10000 — the call persists
exactly one new row carrying the given width, height and depth
unchanged, with `volume = width * height * depth`, and raises no
error. -/
theorem claim_C2_amended : ∀ (db : List AssetRow) (name : String)
    (pack_id : Nat) (category blend_file_path : String)
    (props : CreateProps), 3 ≤ props.dimensions.length →
    ∃ row : AssetRow,
      (create_asset_optimized db name pack_id category blend_file_path
        props).2 = db ++ [row] ∧
      row.width = props.dimensions.getD 0 0 ∧
      row.height = props.dimensions.getD 1 0 ∧
      row.depth = props.dimensions.getD 2 0 ∧
      row.volume = props.dimensions.getD 0 0 * props.dimensions.getD 1 0
        * props.dimensions.getD 2 0 := by
  intro db name pack_id category blend_file_path props h3
  exact create_asset_optimized_spec db name pack_id category
    blend_file_path props h3

/-- Concrete out-of-range properties used to instantiate C2. -/
def c2Props : CreateProps := { defaultProps with dimensions := [-5, 20000, 2] }

theorem claim_C2_amended_witness :
    ∃ row : AssetRow,
      (create_asset_optimized [] "A" 1 "props" "/packs/p.blend"
        c2Props).2 = [] ++ [row] ∧
      row.width = c2Props.dimensions.getD 0 0 ∧
      row.height = c2Props.dimensions.getD 1 0 ∧
      row.depth = c2Props.dimensions.getD 2 0 ∧
      row.volume = c2Props.dimensions.getD 0 0 * c2Props.dimensions.getD 1 0
        * c2Props.dimensions.getD 2 0 :=
  claim_C2_amended [] "A" 1 "props" "/packs/p.blend" c2Props
    (by norm_num [c2Props, defaultProps])

/-- An offending dimension component is clamped to 0. -/
theorem clampDim_of_offending (d : Option ℚ) (h : dimOffending d) :
    clampDim d = 0 := by
  rcases h with h | ⟨q, hq, hr⟩
  · subst h; rfl
  · subst hq
    simp only [clampDim]
    exact if_pos hr

/-- A conforming dimension component is preserved unchanged. -/
theorem clampDim_of_valid (d : Option ℚ) (h : ¬ dimOffending d) :
    some (clampDim d) = d := by
  cases d with
  | none => exact absurd (Or.inl rfl) h
  | some q =>
    have hr : ¬ (q < 0 ∨ 10000 < q) := fun hr => h (Or.inr ⟨q, rfl, hr⟩)
    simp [clampDim, hr]

/-- C4: storing an extracted asset whose dimension triple contains an
offending component (non-numeric, < 0, or > 10000) replaces only that
component with 0.0, preserves the other components unchanged, and still
creates the record — the record is never rejected for this reason. -/
theorem claim_C4_clamping : ∀ (db : List AssetRow) (a : ExtractedAsset)
    (pack_id : Nat) (relative_path blend_file_path : String),
    3 ≤ a.dimensions.length →
    ∃ row : AssetRow,
      (create_database_asset_improved db a pack_id relative_path
        blend_file_path).2 = db ++ [row] ∧
      (dimOffending (a.dimensions.getD 0 none) → row.width = 0) ∧
      (¬ dimOffending (a.dimensions.getD 0 none) →
        some row.width = a.dimensions.getD 0 none) ∧
      (dimOffending (a.dimensions.getD 1 none) → row.height = 0) ∧
      (¬ dimOffending (a.dimensions.getD 1 none) →
        some row.height = a.dimensions.getD 1 none) ∧
      (dimOffending (a.dimensions.getD 2 none) → row.depth = 0) ∧
      (¬ dimOffending (a.dimensions.getD 2 none) →
        some row.depth = a.dimensions.getD 2 none) := by
  intro db a pack_id relative_path blend_file_path h3
  have hlen : ¬ a.dimensions.length < 3 := by omega
  simp only [create_database_asset_improved]
  rw [if_neg hlen]
  obtain ⟨row, hdb, hw, hh, hd, _⟩ :=
    create_asset_optimized_spec db a.name pack_id a.category
      blend_file_path
      { polygon_count := a.polygon_count
        vertex_count := a.vertex_count
        material_count := 0
        object_count := a.object_count
        dimensions := [clampDim (a.dimensions.getD 0 none),
                       clampDim (a.dimensions.getD 1 none),
                       clampDim (a.dimensions.getD 2 none)]
        complexity_score := a.complexity_score
        quality_tier := a.quality_tier
        estimated_load_time := ratMax (1/10) ((a.polygon_count : ℚ) / 10000)
        memory_estimate := ratMax 1 ((a.polygon_count : ℚ) / 1000)
        primary_style := none
        size_category := determine_size_category
          (clampDim (a.dimensions.getD 0 none))
          (clampDim (a.dimensions.getD 1 none))
          (clampDim (a.dimensions.getD 2 none))
        subcategory := none
        collection_name := if a.kind = "collection" then some a.name else none
        file_path := relative_path } (by simp)
  refine ⟨row, hdb, ?_, ?_, ?_, ?_, ?_, ?_⟩ <;> intro h
  · rw [hw]; exact clampDim_of_offending _ h
  · rw [hw]; exact clampDim_of_valid _ h
  · rw [hh]; exact clampDim_of_offending _ h
  · rw [hh]; exact clampDim_of_valid _ h
  · rw [hd]; exact clampDim_of_offending _ h
  · rw [hd]; exact clampDim_of_valid _ h

/-- Concrete extracted asset with an out-of-range, a conforming and a
non-numeric dimension component, used to instantiate C4. -/
def c4Asset : ExtractedAsset :=
  { name := "Prop_Barrel"
    kind := "object"
    category := "props"
    polygon_count := 80
    vertex_count := 60
    object_count := 1
    complexity_score := 1
    quality_tier := "low"
    dimensions := [some (-5), some 3, none] }

theorem claim_C4_clamping_witness :
    ∃ row : AssetRow,
      (create_database_asset_improved [] c4Asset 1 "props/b.blend"
        "/packs/props/b.blend").2 = [] ++ [row] ∧
      (dimOffending (c4Asset.dimensions.getD 0 none) → row.width = 0) ∧
      (¬ dimOffending (c4Asset.dimensions.getD 0 none) →
        some row.width = c4Asset.dimensions.getD 0 none) ∧
      (dimOffending (c4Asset.dimensions.getD 1 none) → row.height = 0) ∧
      (¬ dimOffending (c4Asset.dimensions.getD 1 none) →
        some row.height = c4Asset.dimensions.getD 1 none) ∧
      (dimOffending (c4Asset.dimensions.getD 2 none) → row.depth = 0) ∧
      (¬ dimOffending (c4Asset.dimensions.getD 2 none) →
        some row.depth = c4Asset.dimensions.getD 2 none) :=
  claim_C4_clamping [] c4Asset 1 "props/b.blend" "/packs/props/b.blend"
    (by norm_num [c4Asset])

/-- The retry loop makes at most one attempt more than the remaining
retry budget. -/
theorem extractGo_attempts_le (extract : Nat → Except String Nat) :
    ∀ (remaining attempt sleeps : Nat),
      (extractGo extract remaining attempt sleeps).attempts
        ≤ attempt + remaining + 1 := by
  intro remaining
  induction remaining with
  | zero =>
    intro attempt sleeps
    cases h : extract attempt <;> simp [extractGo, h]
  | succ r ih =>
    intro attempt sleeps
    cases h : extract attempt with
    | ok n => simp only [extractGo, h]; omega
    | error e =>
      simp only [extractGo, h]
      split
      · exact le_trans (ih (attempt + 1) (sleeps + 1)) (by omega)
      · dsimp only; omega

/-- When every attempt fails with a transient error, the retry loop
uses its whole budget, pausing once between consecutive attempts. -/
theorem extractGo_all_transient (extract : Nat → Except String Nat)
    (hall : ∀ i, ∃ e, extract i = Except.error e
      ∧ is_transient_error e = true) :
    ∀ (remaining attempt sleeps : Nat),
      (extractGo extract remaining attempt sleeps).attempts
          = attempt + remaining + 1 ∧
      (extractGo extract remaining attempt sleeps).sleeps
          = sleeps + remaining := by
  intro remaining
  induction remaining with
  | zero =>
    intro attempt sleeps
    obtain ⟨e, he, _⟩ := hall attempt
    simp [extractGo, he]
  | succ r ih =>
    intro attempt sleeps
    obtain ⟨e, he, ht⟩ := hall attempt
    simp only [extractGo, he, ht, if_true]
    refine ⟨?_, ?_⟩
    · rw [(ih (attempt + 1) (sleeps + 1)).1]; omega
    · rw [(ih (attempt + 1) (sleeps + 1)).2]; omega

/-- C8: an error is classified transient exactly when its lowercased
message contains one of the eight indicator substrings; a non-transient
first failure is re-raised immediately after one attempt with no pause;
and with `max_retries = 2` as in the source at most three attempts are ever
made, with exactly three attempts and two one-second pauses when every
attempt fails transiently. -/
theorem claim_C8_retry_policy :
    (∀ msg : String, is_transient_error msg = true ↔
      ∃ ind ∈ transientIndicators, containsSub (strToLower msg) ind = true) ∧
    (∀ (extract : Nat → Except String Nat) (e : String),
      extract 0 = Except.error e → is_transient_error e = false →
      extract_with_retry extract 2 = ⟨Except.error e, 1, 0⟩) ∧
    (∀ extract : Nat → Except String Nat,
      (extract_with_retry extract 2).attempts ≤ 3) ∧
    (∀ extract : Nat → Except String Nat,
      (∀ i, ∃ e, extract i = Except.error e ∧ is_transient_error e = true) →
      (extract_with_retry extract 2).attempts = 3 ∧
      (extract_with_retry extract 2).sleeps = 2) := by
  refine ⟨?_, ?_, ?_, ?_⟩
  · intro msg
    simp [is_transient_error, List.any_eq_true]
  · intro extract e h0 ht
    simp [extract_with_retry, extractGo, h0, ht]
  · intro extract
    simpa using extractGo_attempts_le extract 2 0 0
  · intro extract hall
    simpa using extractGo_all_transient extract hall 2 0 0

theorem claim_C8_retry_policy_witness :
    is_transient_error "Database lock timeout" = true ∧
    extract_with_retry (fun _ => Except.error "parse failure") 2
      = ⟨Except.error "parse failure", 1, 0⟩ ∧
    (extract_with_retry (fun _ => Except.error "timeout") 2).attempts = 3 ∧
    (extract_with_retry (fun _ => Except.error "timeout") 2).sleeps = 2 :=
  ⟨(claim_C8_retry_policy.1 "Database lock timeout").mpr
      ⟨"lock", by decide, by decide⟩,
   claim_C8_retry_policy.2.1 (fun _ => Except.error "parse failure")
      "parse failure" rfl (by decide),
   (claim_C8_retry_policy.2.2.2 (fun _ => Except.error "timeout")
      (fun _ => ⟨"timeout", rfl, by decide⟩)).1,
   (claim_C8_retry_policy.2.2.2 (fun _ => Except.error "timeout")
      (fun _ => ⟨"timeout", rfl, by decide⟩)).2⟩

/-- A fresh queue item with the schema defaults: pending, no retries
yet, `max_retries = 3`. -/
def c1Item : ScanQueueItem :=
  { id := 1
    blend_file_path := "/packs/a.blend"
    pack_id := 1
    priority := 5
    status := "pending"
    error_message := none
    retry_count := 0
    max_retries := 3
    assigned_worker := none
    started_at := none
    completed_at := none }

/-- C1 (divergence at the failing input): one pending item is dequeued
and then failed via `update_scan_status` with status "failed".  Its incremented
`retry_count` (1) is still strictly below `max_retries` (3), yet the
next `get_next_scan_item` call returns nothing: the status of the item
stays "failed" and is never reset to "pending", so the failed-but-retryable
item never returns to the pending pool, contrary to the claim. -/
theorem claim_C1_retry_divergence :
    ((get_next_scan_item "worker-1" 0 [c1Item]).1.map ScanQueueItem.id
        = some 1) ∧
    ((update_scan_status (get_next_scan_item "worker-1" 0 [c1Item]).2 1
        "failed" (some "boom") 1).map ScanQueueItem.status = ["failed"]) ∧
    ((update_scan_status (get_next_scan_item "worker-1" 0 [c1Item]).2 1
        "failed" (some "boom") 1).map ScanQueueItem.retry_count = [1]) ∧
    ((update_scan_status (get_next_scan_item "worker-1" 0 [c1Item]).2 1
        "failed" (some "boom") 1).map ScanQueueItem.max_retries = [3]) ∧
    ((get_next_scan_item "worker-2" 2
        (update_scan_status (get_next_scan_item "worker-1" 0 [c1Item]).2 1
          "failed" (some "boom") 1)).1 = none) := by
  decide

/-- C9 (counterexample): two workers interleave the two statements of
`get_next_scan_item` (SELECT₁, SELECT₂, UPDATE₁, UPDATE₂) over a queue
holding one pending item; both workers receive the item with id 1, so
dequeue exclusivity fails under statement-level interleaving. -/
theorem claim_C9_counterexample :
    ((runSchedule "worker-1" "worker-2" 0 [true, false, true, false]
        initWorker initWorker [c1Item]).1.result.map ScanQueueItem.id
      = some 1) ∧
    ((runSchedule "worker-1" "worker-2" 0 [true, false, true, false]
        initWorker initWorker [c1Item]).2.1.result.map ScanQueueItem.id
      = some 1) := by
  decide

/-- The item chosen by `pickBest` is an element of the candidate list. -/
theorem pickBest_mem : ∀ {l : List ScanQueueItem} {it : ScanQueueItem},
    pickBest l = some it → it ∈ l := by
  intro l
  induction l with
  | nil => intro it h; simp [pickBest] at h
  | cons x xs ih =>
    intro it h
    simp only [pickBest] at h
    cases hx : pickBest xs with
    | none =>
      rw [hx] at h
      cases h
      exact List.mem_cons_self x xs
    | some b =>
      rw [hx] at h
      dsimp only at h
      by_cases hp : b.priority > x.priority
      · rw [if_pos hp] at h
        cases h
        exact List.mem_cons_of_mem x (ih hx)
      · rw [if_neg hp] at h
        cases h
        exact List.mem_cons_self x xs

/-- The item returned by the SELECT of `get_next_scan_item` is a
pending member of the queue. -/
theorem selectNextPending_spec {q : List ScanQueueItem}
    {it : ScanQueueItem} (h : selectNextPending q = some it) :
    it ∈ q ∧ it.status = "pending" := by
  have hm := pickBest_mem h
  have he := List.of_mem_filter hm
  have hq := List.mem_of_mem_filter hm
  simp only [queueEligible, Bool.and_eq_true, decide_eq_true_eq] at he
  exact ⟨hq, he.1⟩

/-- C9 (amended): when the two dequeue calls run serialized — each
call running its SELECT and UPDATE with no statements of other workers
interleaved between them — no two workers receive the same queue item
id; the interleaved execution of the counterexample is what the claim
excludes. -/
theorem claim_C9_serialized_exclusive : ∀ (q : List ScanQueueItem)
    (w1 w2 : String) (t1 t2 : Nat) (i1 i2 : ScanQueueItem),
    (get_next_scan_item w1 t1 q).1 = some i1 →
    (get_next_scan_item w2 t2 (get_next_scan_item w1 t1 q).2).1 = some i2 →
    i1.id ≠ i2.id := by
  intro q w1 w2 t1 t2 i1 i2 h1 h2
  unfold get_next_scan_item at h1 h2
  cases hs1 : selectNextPending q with
  | none => rw [hs1] at h1; cases h1
  | some j1 =>
    rw [hs1] at h1 h2
    cases h1
    cases hs2 : selectNextPending (markProcessing q i1.id w1 t1) with
    | none => rw [hs2] at h2; cases h2
    | some j2 =>
      rw [hs2] at h2
      cases h2
      obtain ⟨hm2, hp2⟩ := selectNextPending_spec hs2
      obtain ⟨y, hy, hyx⟩ := List.mem_map.mp hm2
      intro heq
      by_cases hid : y.id = i1.id
      · rw [if_pos hid] at hyx
        have : i2.status = "processing" := by rw [← hyx]
        rw [hp2] at this
        exact absurd this (by decide)
      · rw [if_neg hid] at hyx
        rw [← hyx] at heq
        exact hid heq.symm

/-- A second pending queue item used to instantiate the serialized
dequeue theorem. -/
def c9ItemB : ScanQueueItem :=
  { id := 2
    blend_file_path := "/packs/b.blend"
    pack_id := 1
    priority := 5
    status := "pending"
    error_message := none
    retry_count := 0
    max_retries := 3
    assigned_worker := none
    started_at := none
    completed_at := none }

theorem claim_C9_serialized_exclusive_witness : c1Item.id ≠ c9ItemB.id :=
  claim_C9_serialized_exclusive [c1Item, c9ItemB] "worker-1" "worker-2"
    0 1 c1Item c9ItemB (by decide) (by decide)

/-- A validated entry resolved through a named collection. -/
def c3CollectionEntry : LoadEntry :=
  { asset_id := 1
    name := "Building_A"
    collection_name := some "Building_A"
    object_name := none }

/-- A validated entry resolved through a named object. -/
def c3MeshEntry : LoadEntry :=
  { asset_id := 2
    name := "Car_01"
    collection_name := none
    object_name := some "Car_01_obj" }

/-- C3 (counterexample): two validated entries share the same container
file, one collection-based and one mesh/object-based; the assembly
opens the file twice — once in `load_collections_batch` and once in
`load_meshes_batch` — not exactly once as claimed. -/
theorem claim_C3_counterexample :
    (load_assets_from_single_file ["Building_A"] ["Car_01_obj"] []
        [c3CollectionEntry, c3MeshEntry]).length = 2 ∧
    (load_assets_from_single_file ["Building_A"] ["Car_01_obj"] []
        [c3CollectionEntry, c3MeshEntry]).length ≠ 1 := by
  decide

/-- C3 (amended): the loader opens a container file once per nonempty
partition — at most twice — and when both of two entries are
non-collection assets resolving to named objects present in the file,
there is exactly one open, whose single batch request is the
deduplicated union of the two resource names with no mesh fallbacks. -/
theorem claim_C3_batching :
    (∀ (ac ao am : List String) (entries : List LoadEntry),
      (load_assets_from_single_file ac ao am entries).length ≤ 2) ∧
    (∀ (ac ao am : List String) (e1 e2 : LoadEntry) (o1 o2 : String),
      truthyOptStr e1.collection_name = false →
      truthyOptStr e2.collection_name = false →
      e1.object_name = some o1 → o1 ≠ "" → ao.contains o1 = true →
      e2.object_name = some o2 → o2 ≠ "" → ao.contains o2 = true →
      load_assets_from_single_file ac ao am [e1, e2]
          = [⟨[], [o1, o2].dedup, []⟩] ∧
      [o1, o2].dedup.Nodup ∧
      (∀ x, x ∈ ([o1, o2].dedup : List String) ↔ (x = o1 ∨ x = o2))) := by
  constructor
  · intro ac ao am entries
    simp only [load_assets_from_single_file]
    split <;> split <;> simp
  · intro ac ao am e1 e2 o1 o2 hc1 hc2 ho1 hn1 ha1 ho2 hn2 ha2
    have ht1 : truthyOptStr (some o1) = true := by simp [truthyOptStr, hn1]
    have ht2 : truthyOptStr (some o2) = true := by simp [truthyOptStr, hn2]
    have hm1 : o1 ∈ ao := by simpa using ha1
    have hm2 : o2 ∈ ao := by simpa using ha2
    refine ⟨?_, List.nodup_dedup _, ?_⟩
    · simp [load_assets_from_single_file, load_meshes_batch,
            resolveMeshEntries, resolveOne, hc1, hc2, ho1, ho2,
            ht1, ht2, hm1, hm2]
    · intro x
      simp [List.mem_dedup]

theorem claim_C3_batching_witness :
    load_assets_from_single_file [] ["Car_01_obj", "Crate_obj"] []
        [c3MeshEntry,
         { asset_id := 3, name := "Crate_02", collection_name := none,
           object_name := some "Crate_obj" }]
      = [⟨[], ["Car_01_obj", "Crate_obj"].dedup, []⟩] ∧
    (["Car_01_obj", "Crate_obj"] : List String).dedup.Nodup ∧
    (∀ x, x ∈ (["Car_01_obj", "Crate_obj"].dedup : List String)
      ↔ (x = "Car_01_obj" ∨ x = "Crate_obj")) :=
  claim_C3_batching.2 [] ["Car_01_obj", "Crate_obj"] [] c3MeshEntry
    { asset_id := 3, name := "Crate_02", collection_name := none,
      object_name := some "Crate_obj" }
    "Car_01_obj" "Crate_obj" (by decide) (by decide) rfl (by decide)
    (by decide) rfl (by decide) (by decide)

end AIGen
